import Mathlib

/-!
Verification development for the adaptive screen-capture and streaming engine
of the `open-autoglm` repository (GUI server `screen_streamer` / `control`
router and the `phone_agent.adb` capture strategies).

The Python sources are shallowly embedded: pure computations become Lean
functions, stateful methods become explicit state-passing functions, machine
integers become `Nat` (the byte-level parsers index plain byte lists), and
wall-clock readings (`time.time()`) become explicit rational-valued inputs.
External collaborators (PIL, zlib, hashlib, base64, subprocesses) are not
repository code; they are modelled as injective constructors / explicit
per-call outcome inputs, used exactly the way the source uses them
(equality comparison, opaque payloads, success/failure branching).
-/

/-- A byte string (`bytes` in Python); each entry is one byte value. -/
abbrev Bytes := List Nat

/-- Model of a `hashlib.md5(...).hexdigest()` value.  The engine only ever
compares digests for equality, so the external hash is modelled as an
injective tag of the hashed bytes. -/
structure Digest where
  bytes : Bytes
deriving DecidableEq, Repr

/-- Model of `hashlib.md5(b).hexdigest()` (external library call). -/
def md5 (b : Bytes) : Digest := ⟨b⟩

/-- PIL image modes occurring in the capture path. -/
inductive Mode where
  | RGBA
  | RGB
deriving DecidableEq, Repr

/-- Free model of the PIL images flowing through the capture path: every
external image operation used by the source becomes a constructor, so that
distinct pipelines yield distinct values while sizes and modes are computable. -/
inductive Img where
  /-- `Image.frombuffer("RGBA", (w, h), pixels, "raw", "RGBA", 0, 1)` -/
  | frombuffer (w h : Nat) (pixels : Bytes)
  /-- `Image.new("RGB", (w, h), color="black")` -/
  | blackNew (w h : Nat)
  /-- `img.resize((w, h), Image.Resampling.BILINEAR)` -/
  | resized (src : Img) (w h : Nat)
  /-- `img.convert("RGB")` -/
  | toRGB (src : Img)
  /-- an image decoded by an external decoder (PIL `Image.open`), of the
  given reported size; its provenance is the decoded byte payload -/
  | decoded (data : Bytes) (w h : Nat) (m : Mode)
deriving DecidableEq, Repr

/-- `img.size[0]` / `img.width`. -/
def Img.width : Img → Nat
  | .frombuffer w _ _ => w
  | .blackNew w _ => w
  | .resized _ w _ => w
  | .toRGB i => i.width
  | .decoded _ w _ _ => w

/-- `img.size[1]` / `img.height`. -/
def Img.height : Img → Nat
  | .frombuffer _ h _ => h
  | .blackNew _ h => h
  | .resized _ _ h => h
  | .toRGB i => i.height
  | .decoded _ _ h _ => h

/-- `img.mode`.  `frombuffer("RGBA", ...)` yields RGBA, `Image.new("RGB", ...)`
yields RGB, resizing preserves the mode, `convert("RGB")` yields RGB. -/
def Img.mode : Img → Mode
  | .frombuffer _ _ _ => .RGBA
  | .blackNew _ _ => .RGB
  | .resized i _ _ => i.mode
  | .toRGB _ => .RGB
  | .decoded _ _ _ m => m

/-- Injective byte encoding of the free image model, used to give the external
JPEG encoder a concrete injective output. -/
def Img.code : Img → Bytes
  | .frombuffer w h px => 0 :: w :: h :: px.length :: px
  | .blackNew w h => [1, w, h]
  | .resized i w h => 2 :: w :: h :: i.code
  | .toRGB i => 3 :: i.code
  | .decoded d w h m => 4 :: w :: h :: (if m = Mode.RGB then 0 else 1) :: d.length :: d

/-- Model of `img.save(buffered, format="JPEG", quality=q, ...)` followed by
`buffered.getvalue()`: an external encoder, deterministic and injective in the
image and the quality.  The two `0xFF 0xD8` leading bytes are the JPEG SOI
marker. -/
def encodeJPEG (img : Img) (quality : Nat) : Bytes :=
  255 :: 216 :: quality :: img.code

/-- Model of `base64.b64encode(b)` (external codec): injective, only ever
carried around and never inspected by the engine. -/
def b64encode (b : Bytes) : Bytes := 98 :: 52 :: b

/-- The `Screenshot` dataclass of `phone_agent/adb/screenshot.py`. -/
structure Screenshot where
  base64_data : Bytes
  width : Nat
  height : Nat
  is_sensitive : Bool := false
  jpeg_data : Option Bytes := none
  original_width : Option Nat := none
  original_height : Option Nat := none
deriving DecidableEq, Repr

/-- Failure reasons of the ADB capture strategies.  The source raises plain
`Exception`s with these messages; callers only branch on success vs failure,
so an explicit error type is faithful. -/
inductive CapError where
  /-- `"Raw capture failed"` / `"Gzip capture failed"` (subprocess returned
  nonzero or empty stdout, or timed out) -/
  | captureFailed
  /-- both zlib decompression attempts raised -/
  | decompressFailed
  /-- `"Invalid header"` (fewer than 12 bytes) -/
  | invalidHeader
  /-- `f"Unsupported format: {fmt}"` -/
  | unsupportedFormat (fmt : Nat)
  /-- `"Incomplete data"` (payload length differs from `w*h*4`) -/
  | incompleteData
deriving DecidableEq, Repr

/-- `int.from_bytes(b, byteorder="little")` for a 4-byte slice
(missing bytes read as 0, matching a short slice of zeros). -/
def le32 (b : Bytes) : Nat :=
  b.getD 0 0 + 256 * b.getD 1 0 + 65536 * b.getD 2 0 + 16777216 * b.getD 3 0

/-- Little-endian 4-byte encoding of `n` (for building test inputs). -/
def le4 (n : Nat) : Bytes :=
  [n % 256, n / 256 % 256, n / 65536 % 256, n / 16777216 % 256]

/-- `_process_image(img, width, height, quality, max_width)` of
`screenshot.py`.  `int(height * scale)` with `scale = max_width / width` is
modelled by exact rational arithmetic, i.e. `height * max_width / width`
in truncating natural division. -/
def process_image (img : Img) (width height quality max_width : Nat) : Screenshot :=
  let original_width := width
  let original_height := height
  -- `if width > max_width: img = img.resize(...); width, height = new dims`
  let img := if width > max_width
    then Img.resized img max_width (height * max_width / width) else img
  let height := if width > max_width then height * max_width / width else height
  let width := if width > max_width then max_width else width
  let img := if img.mode ≠ Mode.RGB then Img.toRGB img else img
  let jpeg_bytes := encodeJPEG img quality
  { base64_data := b64encode jpeg_bytes
    width := width
    height := height
    is_sensitive := false
    jpeg_data := some jpeg_bytes
    original_width := if width ≠ original_width then some original_width else none
    original_height := if height ≠ original_height then some original_height else none }

/-- The framebuffer validation and decoding steps shared verbatim by
`_get_screenshot_raw` and `_get_screenshot_gzip`: 12-byte little-endian
header `width(4) height(4) format(4)`, format must be 1 (RGBA8888), payload
must be exactly `w*h*4` bytes. -/
def decode_framebuffer (data : Bytes) (quality max_width : Nat) :
    Except CapError Screenshot :=
  if data.length < 12 then .error .invalidHeader
  else
    let w := le32 (data.take 4)
    let h := le32 ((data.drop 4).take 4)
    let fmt := le32 ((data.drop 8).take 4)
    if fmt ≠ 1 then .error (.unsupportedFormat fmt)
    else
      let pixels := data.drop 12
      if pixels.length ≠ w * h * 4 then .error .incompleteData
      else .ok (process_image (Img.frombuffer w h pixels) w h quality max_width)

/-- `_get_screenshot_raw(device_id, timeout, quality, max_width)`:
`stdout` is the result of `adb exec-out screencap` (`none` models a nonzero
return code, empty stdout, or a subprocess timeout — all of which raise). -/
def get_screenshot_raw (stdout : Option Bytes) (quality max_width : Nat) :
    Except CapError Screenshot :=
  match stdout with
  | none => .error .captureFailed
  | some data =>
    if data.length = 0 then .error .captureFailed
    else decode_framebuffer data quality max_width

/-- `_get_screenshot_gzip(device_id, timeout, quality, max_width)`:
`stdout` is the output of `adb shell "screencap | gzip -1"`, `inflate` models
the external zlib decompression (gzip-wrapped with a raw-zlib fallback;
`none` means both attempts raised). -/
def get_screenshot_gzip (stdout : Option Bytes) (inflate : Bytes → Option Bytes)
    (quality max_width : Nat) : Except CapError Screenshot :=
  match stdout with
  | none => .error .captureFailed
  | some raw =>
    if raw.length = 0 then .error .captureFailed
    else
      match inflate raw with
      | none => .error .decompressFailed
      | some data => decode_framebuffer data quality max_width

/-! ## `gui/server/services/screen_streamer.py` — the `ScreenStreamer` state -/

/-- Timestamps (`time.time()` values) are modelled as integers: the engine
only ever subtracts and compares them, so any discretely ordered embedding of
the float clock is faithful for those operations. -/
abbrev Time := ℤ

/-- The capture-relevant mutable fields of the `ScreenStreamer` singleton.
The performance-monitoring lists (`_capture_times`, `_method_performance`,
`_fastest_method`, log flags) only feed diagnostics and method selection and
are not touched by the claims under verification, so they are omitted. -/
structure StreamerState where
  is_streaming : Bool := false
  fps : ℚ := 60
  quality : Nat := 50
  max_width : Nat := 540
  latest_frame : Option Bytes := none
  latest_frame_ts : Time := 0
  latest_frame_hash : Option Digest := none
  screen_on_cache : Option Bool := none
  screen_check_ts : Time := 0
deriving DecidableEq, Repr

/-- `self._screen_cache_ttl = 5.0`. -/
def screen_cache_ttl : Time := 5

/-- Per-call external inputs of `_capture_frame_sync` (one device interaction):
the outcome of `factory.is_screen_on` (`.error ()` = the probe raised), the
`jpeg_data` of the `factory.get_screenshot` result (`none` = the screenshot
was falsy, had no jpeg bytes, or the call raised), and the two `time.time()`
readings that are stored into the state (at the screen-cache check and at the
timestamp store; the remaining clock reads only feed the omitted
performance counters). -/
structure CaptureEnv where
  probe : Except Unit Bool
  shot : Option Bytes
  nowCheck : Time
  nowStore : Time
deriving Repr

/-- `_get_screen_state_cached(device_id, factory)`: returns the screen state
and the updated cache.  On a probe exception the screen is recorded as on
(`True`) and the cache time is stamped. -/
def get_screen_state_cached (s : StreamerState) (now : Time)
    (probe : Except Unit Bool) : Bool × StreamerState :=
  if s.screen_on_cache.isSome ∧ now - s.screen_check_ts < screen_cache_ttl then
    (s.screen_on_cache.getD true, s)
  else
    match probe with
    | .ok b => (b, { s with screen_on_cache := some b, screen_check_ts := now })
    | .error _ => (true, { s with screen_on_cache := some true, screen_check_ts := now })

/-- The status strings returned by the capture path:
`'new'`, `'unchanged'`, `'locked'`, `'error'`. -/
inductive Status where
  | new
  | unchanged
  | locked
  | error
deriving DecidableEq, Repr

/-- `_capture_frame_sync(device_id)`.  Returns `(frame, status)` and the
updated state.  The WebSocket broadcast and screen-change listener
notifications are outward side effects with no bearing on the returned value
or the cached fields and are omitted.  Note that on a hash-equal capture the
source updates only the timestamp and deliberately returns `'new'`
(`# Return 'new' instead of 'unchanged' to ensure frame is pushed`). -/
def capture_frame_sync (s : StreamerState) (env : CaptureEnv) :
    (Option Bytes × Status) × StreamerState :=
  let r := get_screen_state_cached s env.nowCheck env.probe
  let is_on := r.1
  let s := r.2
  if ¬ is_on then ((none, .locked), s)
  else
    match env.shot with
    | none => ((none, .error), s)
    | some jpeg =>
      let frame_hash := md5 jpeg
      if s.latest_frame_hash = some frame_hash then
        let s := { s with latest_frame_ts := env.nowStore }
        ((s.latest_frame, .new), s)
      else
        let s := { s with latest_frame := some jpeg,
                          latest_frame_hash := some frame_hash,
                          latest_frame_ts := env.nowStore }
        ((s.latest_frame, .new), s)

/-- `start_streaming()`: no-ops when already streaming or when no device is
selected; otherwise marks streaming active (the spawned thread is modelled
separately as the capture loop). -/
def start_streaming (s : StreamerState) (device : Bool) : StreamerState :=
  if s.is_streaming then s
  else if ¬ device then s
  else { s with is_streaming := true }

/-- `stop_streaming()`. -/
def stop_streaming (s : StreamerState) : StreamerState :=
  if ¬ s.is_streaming then s else { s with is_streaming := false }

/-- `update_settings(quality, max_width, fps)` — note the source guards each
assignment by Python truthiness (`if quality:`), so passing `0`/`None`
leaves a field unchanged. -/
def update_settings (s : StreamerState) (quality max_width : Option Nat)
    (fps : Option ℚ) : StreamerState :=
  let s := match quality with
    | some q => if q ≠ 0 then { s with quality := q } else s
    | none => s
  let s := match max_width with
    | some m => if m ≠ 0 then { s with max_width := m } else s
    | none => s
  match fps with
  | some f => if f ≠ 0 then { s with fps := f } else s
  | none => s

/-! ## `capture_frame` (async wrapper) and the `control.py` consumer endpoints -/

/-- External inputs of one `capture_frame()` call: whether
`device_manager.active_device_id` is set, the `time.time()` reading at the
frame-age check, the cache snapshots the 0.1 s wait loop would observe (each
paired with its own clock reading; written concurrently by the background
thread), and the inputs of the on-demand `_capture_frame_sync` call should the
code fall through to it. -/
structure FrameEnv where
  device : Bool
  now : Time
  waitObs : List (Option (Bytes × Time) × Time)
  cenv : CaptureEnv
deriving Repr

/-- The wait loop of `capture_frame`: return the first observed cached frame
that is truthy, has a positive timestamp and is younger than 5 seconds. -/
def findFreshFrame : List (Option (Bytes × Time) × Time) → Option Bytes
  | [] => none
  | (some (f, ts), now) :: rest =>
    if f.length ≠ 0 ∧ ts > 0 ∧ now - ts < 5 then some f else findFreshFrame rest
  | (none, _) :: rest => findFreshFrame rest

/-- `capture_frame()` of `ScreenStreamer`.  Returns `(frame, status)`, the
updated state, and whether an on-demand device capture
(`_capture_frame_sync`) was performed.  When background streaming is active
and the cached frame is fresh (< 5 s) the cached frame is returned directly;
otherwise the code falls through to an on-demand capture (or `'error'` when
no device is selected). -/
def capture_frame (s : StreamerState) (env : FrameEnv) :
    (Option Bytes × Status) × StreamerState × Bool :=
  let onDemand :=
    if ¬ env.device then ((none, Status.error), s, false)
    else
      let r := capture_frame_sync s env.cenv
      (r.1, r.2, true)
  if s.is_streaming then
    match s.latest_frame with
    | some f =>
      if f.length ≠ 0 ∧ s.latest_frame_ts > 0 then
        if env.now - s.latest_frame_ts < 5 then ((some f, .new), s, false)
        else onDemand
      else
        match findFreshFrame (env.waitObs.take 5) with
        | some g => ((some g, .new), s, false)
        | none => onDemand
    | none =>
      match findFreshFrame (env.waitObs.take 5) with
      | some g => ((some g, .new), s, false)
      | none => onDemand
  else onDemand

/-- The request headers `get_latest_frame` inspects: `If-None-Match`
(compared for equality against the frame hash) and whether `Accept-Encoding`
contains `gzip`. -/
structure Request where
  if_none_match : Option Digest
  accept_gzip : Bool
deriving DecidableEq, Repr

/-- Model of `gzip.compress(b, compresslevel=6)` (external codec, injective;
`0x1f 0x8b` is the gzip magic). -/
def gzipCompress (b : Bytes) : Bytes := 31 :: 139 :: b

/-- The observable parts of a FastAPI `Response` / raised `HTTPException`
produced by `get_latest_frame`. -/
structure HttpResponse where
  status : Nat
  body : Option Bytes := none
  etag : Option Digest := none
  x_timestamp : Option Int := none
  content_encoding_gzip : Bool := false
deriving DecidableEq, Repr

/-- The 200-serving block of `get_latest_frame` (it appears verbatim twice in
the source: once for the `frame` branch and once for the dead `'unchanged'`
branch): ETag/304 check, then JPEG body, optionally gzip-compressed. -/
def serve_frame_response (f : Bytes) (ts : Time) (req : Request) : HttpResponse :=
  let frame_hash := md5 f
  if req.if_none_match = some frame_hash then
    { status := 304 }
  else
    { status := 200
      body := some (if req.accept_gzip then gzipCompress f else f)
      etag := some frame_hash
      x_timestamp := some (ts * 1000)
      content_encoding_gzip := req.accept_gzip }

/-- `GET /stream/latest` (`get_latest_frame` in `routers/control.py`).
Returns the response, the updated streamer state, and whether the request
performed an on-demand device capture.  The initial block auto-starts
background streaming when it is off and a device is present; its 1 s
wait-for-first-frame loop only delays (in this single-writer model the cache
does not change during it). -/
def get_latest_frame (s : StreamerState) (req : Request) (env : FrameEnv) :
    HttpResponse × StreamerState × Bool :=
  let s := if ¬ s.is_streaming ∧ env.device then start_streaming s true else s
  let cf := capture_frame s env
  let frame := cf.1.1
  let status := cf.1.2
  let s' := cf.2.1
  let onDemand := cf.2.2
  match frame with
  | some f =>
    if f.length ≠ 0 then (serve_frame_response f s'.latest_frame_ts req, s', onDemand)
    else (unchanged_or_error_response status s' req, s', onDemand)
  | none => (unchanged_or_error_response status s' req, s', onDemand)
where
  /-- the `elif status == 'unchanged'` / `'locked'` / else branches -/
  unchanged_or_error_response (status : Status) (s' : StreamerState)
      (req : Request) : HttpResponse :=
    match status with
    | .unchanged =>
      match s'.latest_frame with
      | some f =>
        if f.length ≠ 0 then serve_frame_response f s'.latest_frame_ts req
        else { status := 204 }
      | none => { status := 204 }
    | .locked => { status := 423 }
    | _ => { status := 503 }

/-- What one iteration of `_generate_mjpeg_stream` yields. -/
inductive MjpegYield where
  /-- a multipart chunk containing this JPEG frame -/
  | chunk (frame : Bytes)
  /-- nothing yielded this tick (error/locked/empty-cache wait) -/
  | nothing
  /-- the generator breaks out of its loop -/
  | terminate
deriving DecidableEq, Repr

/-- The loop-local variables of `_generate_mjpeg_stream` (initialised once
when the generator starts; `frame_interval` is derived from the fps at that
moment). -/
structure MjpegState where
  last_frame_hash : Option Digest := none
  consecutive_errors : Nat := 0
  frame_interval : ℚ
deriving DecidableEq, Repr

/-- The multipart chunk bytes
`--frame\r\nContent-Type: image/jpeg\r\nContent-Length: N\r\n\r\n<bytes>\r\n`. -/
def mjpeg_frame_chunk (f : Bytes) : Bytes :=
  ("--frame\r\n".toList.map Char.toNat)
    ++ ("Content-Type: image/jpeg\r\n".toList.map Char.toNat)
    ++ ("Content-Length: ".toList.map Char.toNat)
    ++ ((toString f.length).toList.map Char.toNat)
    ++ ("\r\n\r\n".toList.map Char.toNat)
    ++ f ++ ("\r\n".toList.map Char.toNat)

/-- One iteration of the `while True` loop of `_generate_mjpeg_stream`:
checks the device, calls `capture_frame`, yields a chunk / waits / breaks.
Returns the yield, the updated loop-locals and streamer state, and whether
this tick performed an on-demand device capture. -/
def mjpeg_tick (ms : MjpegState) (s : StreamerState) (env : FrameEnv) :
    MjpegYield × MjpegState × StreamerState × Bool :=
  if ¬ env.device then (.terminate, ms, s, false)
  else
    let cf := capture_frame s env
    let frame := cf.1.1
    let status := cf.1.2
    let s' := cf.2.1
    let onDemand := cf.2.2
    -- the `elif status == ...` chain, reached when no truthy frame came back
    let noFrame : Status → MjpegYield × MjpegState × StreamerState × Bool :=
      fun status =>
        match status with
        | .unchanged =>
          match s'.latest_frame with
          | some cf =>
            if cf.length ≠ 0 then (.chunk cf, ms, s', onDemand)
            else (.nothing, ms, s', onDemand)
          | none => (.nothing, ms, s', onDemand)
        | _ =>
          -- `'locked'` (sleep 1 s) and the error fallthrough (sleep 0.1 s)
          -- count and check consecutive errors identically
          let ce := ms.consecutive_errors + 1
          if ce ≥ 20 then (.terminate, { ms with consecutive_errors := ce }, s', onDemand)
          else (.nothing, { ms with consecutive_errors := ce }, s', onDemand)
    match frame with
    | some f =>
      if f.length ≠ 0 then
        let frame_hash := md5 f
        let ms :=
          if some frame_hash ≠ ms.last_frame_hash then
            { ms with last_frame_hash := some frame_hash, consecutive_errors := 0 }
          else ms
        (.chunk f, ms, s', onDemand)
      else noFrame status
    | none => noFrame status

/-- `WS /stream/ws` (`stream_websocket`): registers the connection, starts
background streaming if needed, then only echoes ping/pong until disconnect —
it never calls `capture_frame` or any capture strategy.  Returned flag:
whether the handler performed a device capture (it structurally cannot). -/
def stream_websocket (s : StreamerState) (device : Bool) : StreamerState × Bool :=
  let s := if ¬ s.is_streaming then start_streaming s device else s
  (s, false)

/-! ## `_background_capture_loop` -/

/-- `max_consecutive_errors = 20`. -/
def max_consecutive_errors : Nat := 20

/-- What one iteration of the background capture loop encounters.  The
`settings` event models a concurrent `update_settings` call from another
thread, interleaved between iterations. -/
inductive LoopEvent where
  /-- `self.stop_event.is_set()` at the loop head -/
  | stopSignal
  /-- `device_manager.active_device_id` is `None` -/
  | noDevice
  /-- a device is present; the capture runs with these inputs
  (`nowLoop` is the `time.time()` reading of the `'unchanged'` branch) -/
  | iterate (env : CaptureEnv) (nowLoop : Time)
  /-- an exception escaped the iteration body into the `except` clause -/
  | exn
  /-- a concurrent `update_settings(quality, max_width, fps)` -/
  | settings (quality max_width : Option Nat) (fps : Option ℚ)

/-- `true` exactly for `LoopEvent.iterate` events. -/
def LoopEvent.isIterate : LoopEvent → Bool
  | .iterate _ _ => true
  | _ => false

/-- The loop-local state of `_background_capture_loop`.
`target_frame_interval` is computed once, before the `while` loop, from the
fps valid at that moment, and is never recomputed. -/
structure LoopState where
  streamer : StreamerState
  consecutive_errors : Nat
  target_frame_interval : ℚ
  exited : Bool
deriving Repr

/-- Loop-entry initialisation:
`target_frame_interval = 1.0 / self.fps if self.fps > 0 else 0.0167`. -/
def capture_loop_start (s : StreamerState) : LoopState :=
  { streamer := s
    consecutive_errors := 0
    target_frame_interval := if s.fps > 0 then 1 / s.fps else 167 / 10000
    exited := false }

/-- One iteration of `_background_capture_loop`.  The second component is the
pacing interval the iteration referenced when sleeping off the remainder of
its time slice (`remaining_time = target_frame_interval - capture_duration`);
it is `none` for iterations that slept a backoff or did not sleep a frame
interval.  A loop that has exited stays exited: nothing inside the engine
restarts it. -/
def capture_loop_step (ls : LoopState) (e : LoopEvent) : LoopState × Option ℚ :=
  if ls.exited then (ls, none)
  else
    match e with
    | .stopSignal => ({ ls with exited := true }, none)
    | .settings q mw fps =>
      ({ ls with streamer := update_settings ls.streamer q mw fps }, none)
    | .noDevice =>
      let ce := ls.consecutive_errors + 1
      if ce ≥ max_consecutive_errors then
        ({ ls with streamer := stop_streaming ls.streamer,
                   consecutive_errors := ce, exited := true }, none)
      else ({ ls with consecutive_errors := ce }, none)
    | .exn =>
      let ce := ls.consecutive_errors + 1
      if ce ≥ max_consecutive_errors then
        ({ ls with streamer := stop_streaming ls.streamer,
                   consecutive_errors := ce, exited := true }, none)
      else ({ ls with consecutive_errors := ce }, none)
    | .iterate env nowLoop =>
      -- `# Reset error counter on success` — executed on every iteration
      -- that found a device, before the capture and regardless of its outcome
      let ce := 0
      let r := capture_frame_sync ls.streamer env
      let status := r.1.2
      let s' := r.2
      match status with
      | .error | .locked =>
        -- backoff sleep `min(0.1 * 2^min(ce, 3), 1.0)`, then `ce += 1`;
        -- the threshold is never consulted on this branch
        ({ ls with streamer := s', consecutive_errors := ce + 1 }, none)
      | .unchanged =>
        let s' :=
          match s'.latest_frame with
          | some f => if f.length ≠ 0 then { s' with latest_frame_ts := nowLoop } else s'
          | none => s'
        ({ ls with streamer := s', consecutive_errors := 0 },
         some ls.target_frame_interval)
      | _ =>
        ({ ls with streamer := s', consecutive_errors := 0 },
         some ls.target_frame_interval)

/-- Run the loop over a sequence of iteration events. -/
def capture_loop_run (ls : LoopState) (evs : List LoopEvent) : LoopState :=
  evs.foldl (fun st e => (capture_loop_step st e).1) ls

/-! ## `phone_agent/adb/scrcpy_capture.py` — `_read_png_from_stream` -/

/-- The decoder-stdout stream as the parser sees it: `ready` is the readiness
schedule sampled by the successive `select.select` polls (indexed by
`idx`, bumped once per poll), and `data` are the bytes a blocking `read`
would deliver in order (`read(n)` returns up to `n` bytes; an exhausted
stream returns `b""`). -/
structure ByteStream where
  ready : Nat → Bool
  idx : Nat
  data : Bytes

/-- One non-blocking readiness poll (`select.select([fd], [], [], t)`). -/
def ByteStream.poll (s : ByteStream) : Bool × ByteStream :=
  (s.ready s.idx, { s with idx := s.idx + 1 })

/-- `stream.read(n)`. -/
def ByteStream.read (s : ByteStream) (n : Nat) : Bytes × ByteStream :=
  (s.data.take n, { s with data := s.data.drop n })

/-- The 8-byte PNG signature `\x89PNG\r\n\x1a\n`. -/
def pngSignature : Bytes := [137, 80, 78, 71, 13, 10, 26, 10]

/-- The terminal chunk type `b"IEND"`. -/
def iendType : Bytes := [73, 69, 78, 68]

/-- `int.from_bytes(b, "big")` for the 4-byte chunk length. -/
def be32 (b : Bytes) : Nat :=
  16777216 * b.getD 0 0 + 65536 * b.getD 1 0 + 256 * b.getD 2 0 + b.getD 3 0

/-- `buffer.find(signature)`: index of the first occurrence, `none` if
absent (the source's `-1`). -/
def findSignature (l : Bytes) : Option Nat :=
  if l.take pngSignature.length = pngSignature then some 0
  else
    match l with
    | [] => none
    | _ :: t => (findSignature t).map (· + 1)

/-- `max_size = 10 * 1024 * 1024`. -/
def png_max_size : Nat := 10485760

/-- `max_read_attempts = 1000`. -/
def png_max_read_attempts : Nat := 1000

/-- The resynchronisation scan: up to 64 further 1 KB reads looking for the
PNG signature.  `some (buffer, s)` falls through to chunk reading with that
buffer (which is what the `break` paths do — including the not-ready and EOF
breaks, which fall through with a buffer that need not start with the
signature); `none` is the `return None` of the 64 KB overflow guard and of
the `for`-`else` (signature never found within 64 iterations). -/
def scanForSignature (s : ByteStream) (buffer : Bytes) : Nat → Option (Bytes × ByteStream)
  | 0 => none
  | fuel + 1 =>
    let pl := s.poll
    let s := pl.2
    if ¬ pl.1 then some (buffer, s)
    else
      let rd := s.read 1024
      let more := rd.1
      let s := rd.2
      if more.length = 0 then some (buffer, s)
      else
        let buffer := buffer ++ more
        match findSignature buffer with
        | some pos => some (buffer.drop pos, s)
        | none =>
          if buffer.length > 65536 then none
          else scanForSignature s buffer fuel

/-- The inner `while len(chunk_data) < chunk_length` read loop: poll, read the
remaining bytes, abort with `none` on a not-ready poll or an empty read. -/
def readChunkData (s : ByteStream) (need : Nat) (acc : Bytes) :
    Option (Bytes × ByteStream) :=
  if h : acc.length < need then
    let pl := s.poll
    if ¬ pl.1 then none
    else
      let rd := pl.2.read (need - acc.length)
      if hd : rd.1.length = 0 then none
      else readChunkData rd.2 need (acc ++ rd.1)
  else some (acc, s)
termination_by need - acc.length
decreasing_by
  simp only [List.length_append]
  have hd' : (s.poll.2.read (need - acc.length)).1.length ≠ 0 := hd
  omega

/-- The chunk-reading loop of `_read_png_from_stream`: runs while no IEND
chunk has been seen, the accumulated data is below 10 MB and fewer than 1000
read attempts have been made; a not-ready poll is retried at most 10 times,
and a short header/CRC, an empty read or an over-long chunk abort with
`none`.  `some png` is the accumulated PNG byte string ending in the IEND
chunk (the source then hands it to PIL for decoding). -/
def pngChunkLoop (s : ByteStream) (png_data : Bytes) (read_attempts : Nat) :
    Option Bytes :=
  if h : png_data.length < png_max_size ∧ read_attempts < png_max_read_attempts then
    let attempts := read_attempts + 1
    let pl := s.poll
    let s := pl.2
    if ¬ pl.1 then
      if attempts > 10 then none
      else pngChunkLoop s png_data attempts
    else
      let rd := s.read 8
      let chunk_header := rd.1
      let s := rd.2
      if chunk_header.length < 8 then none
      else
        let chunk_length := be32 (chunk_header.take 4)
        let chunk_type := chunk_header.drop 4
        if chunk_length > 10485760 then none
        else
          match readChunkData s chunk_length [] with
          | none => none
          | some (chunk_data, s) =>
            let pl2 := s.poll
            let s := pl2.2
            if ¬ pl2.1 then none
            else
              let rd2 := s.read 4
              let crc := rd2.1
              let s := rd2.2
              if crc.length < 4 then none
              else
                let png_data := png_data ++ chunk_header ++ chunk_data ++ crc
                if chunk_type = iendType then some png_data
                else pngChunkLoop s png_data attempts
  else none
termination_by png_max_read_attempts - read_attempts
decreasing_by
  all_goals omega

/-- `_read_png_from_stream(stream, timeout)`: initial readiness poll, 8-byte
signature read, optional resynchronisation scan, then the chunk loop.  The
final `Image.open`/`img.load()` PIL decode of the accumulated bytes is an
external library call; the embedding returns the accumulated PNG byte string
it would decode (`none` everywhere the source returns `None`). -/
def read_png_from_stream (s : ByteStream) : Option Bytes :=
  let pl := s.poll
  let s := pl.2
  if ¬ pl.1 then none
  else
    let rd := s.read 8
    let header := rd.1
    let s := rd.2
    if header.length < 8 then none
    else if header = pngSignature then pngChunkLoop s header 0
    else
      match scanForSignature s header 64 with
      | none => none
      | some (buffer, s) => pngChunkLoop s buffer 0

/-! ## `get_screenshot` — the method-fallback pipeline of `screenshot.py` -/

/-- The screenshot methods. -/
inductive Method where
  | scrcpy
  | raw
  | gzip
  | png
deriving DecidableEq, Repr

/-- `_create_fallback_screenshot(is_sensitive)`: an all-black 1080×2400 RGB
image encoded as JPEG at quality 50. -/
def create_fallback_screenshot (is_sensitive : Bool) : Screenshot :=
  let jpeg_bytes := encodeJPEG (Img.blackNew 1080 2400) 50
  { base64_data := b64encode jpeg_bytes
    width := 1080
    height := 2400
    is_sensitive := is_sensitive
    jpeg_data := some jpeg_bytes }

/-- Outcome of one `_get_screenshot_legacy` attempt (screencap to a device
file, `adb pull`, PIL open).  The black-screen sampling of the pulled image
(`_is_black_screen`, a pixel-sampling external computation on the decoded
image) is an input. -/
inductive LegacyOutcome where
  /-- the pulled file is missing or an I/O step raised: the function
  swallows the error and returns the fallback screenshot itself -/
  | pullFailed
  /-- an image was pulled and decoded; `isBlack` is the `_is_black_screen`
  verdict -/
  | image (img : Img) (isBlack : Bool)

/-- `_get_screenshot_legacy(device_id, timeout, quality, max_width)`:
re-raises only the black-screen rejection, returns the fallback screenshot
on any other failure. -/
def get_screenshot_legacy (o : LegacyOutcome) (quality max_width : Nat) :
    Except Unit Screenshot :=
  match o with
  | .pullFailed => .ok (create_fallback_screenshot false)
  | .image img isBlack =>
    if isBlack then .error ()
    else .ok (process_image img img.width img.height quality max_width)

/-- Outcome of one `adb exec-out screencap -p` attempt plus the PIL decode
of its output. -/
inductive PngOutcome where
  /-- `subprocess.run` raised (e.g. `TimeoutExpired`) -/
  | exn
  /-- nonzero return code -/
  | exitNonzero
  /-- empty stdout -/
  | empty
  /-- fewer than 4 bytes of output -/
  | tooShort
  /-- `Image.open` raised on the output -/
  | parseFailed
  /-- the decoded image -/
  | image (img : Img)

/-- Per-call outcomes of every external interaction of `get_screenshot`.
The same scenario is consulted for a method wherever the pipeline retries
it (a stable device during the one call). -/
structure ShotEnv where
  /-- `_check_scrcpy_available()` -/
  scrcpy_available : Bool
  /-- `get_screenshot_scrcpy(...)` (`none`: returned `None` or raised) -/
  scrcpy_result : Option Screenshot
  /-- stdout of `adb exec-out screencap` (`none`: failed/raised) -/
  raw_stdout : Option Bytes
  /-- stdout of `adb shell "screencap | gzip -1"` (`none`: failed/raised) -/
  gzip_stdout : Option Bytes
  /-- the external zlib decompression -/
  inflate : Bytes → Option Bytes
  /-- the preferred-branch `screencap -p` run -/
  preferred_png : PngOutcome
  /-- the fallback-branch `screencap -p` run -/
  fallback_png : PngOutcome
  /-- the `_get_screenshot_legacy` attempt -/
  legacy : LegacyOutcome

/-- The last-resort block of `get_screenshot` (the `except` around the PNG
fallback): try the legacy method; if it raises (black screen), return the
black fallback screenshot. -/
def get_screenshot_last_resort (env : ShotEnv) (quality max_width : Nat) : Screenshot :=
  match get_screenshot_legacy env.legacy quality max_width with
  | .ok res => res
  | .error _ => create_fallback_screenshot false

/-- The raw → gzip → png fallback chain of `get_screenshot` (reached when
scrcpy and the preferred method, if any, have failed). -/
def get_screenshot_adb_chain (env : ShotEnv) (quality max_width : Nat) : Screenshot :=
  match get_screenshot_raw env.raw_stdout quality max_width with
  | .ok res => res
  | .error _ =>
    match get_screenshot_gzip env.gzip_stdout env.inflate quality max_width with
    | .ok res => res
    | .error _ =>
      match env.fallback_png with
      | .exitNonzero => create_fallback_screenshot false
      | .empty => create_fallback_screenshot false
      | .tooShort => create_fallback_screenshot false
      | .parseFailed =>
        -- `return _get_screenshot_legacy(...)` at the parse-failure site; a
        -- black-screen raise from it propagates to the outer `except`, which
        -- runs the legacy attempt again and then returns the fallback
        match get_screenshot_legacy env.legacy quality max_width with
        | .ok res => res
        | .error _ => get_screenshot_last_resort env quality max_width
      | .image img =>
        -- `_is_black_screen` is consulted here but its verdict is only
        -- logged ("proceeding anyway to avoid false positives")
        process_image img img.width img.height quality max_width
      | .exn => get_screenshot_last_resort env quality max_width

/-- The preferred-method block of `get_screenshot`.  Note that in the
preferred raw/gzip branches the black-screen re-check raises inside a `try`
whose handler is `pass`, so a successful result is returned regardless of
the verdict. -/
def get_screenshot_preferred (env : ShotEnv) (quality max_width : Nat)
    (preferred : Option Method) : Screenshot :=
  match preferred with
  | some .raw =>
    match get_screenshot_raw env.raw_stdout quality max_width with
    | .ok res => res
    | .error _ => get_screenshot_adb_chain env quality max_width
  | some .gzip =>
    match get_screenshot_gzip env.gzip_stdout env.inflate quality max_width with
    | .ok res => res
    | .error _ => get_screenshot_adb_chain env quality max_width
  | some .png =>
    match env.preferred_png with
    | .image img => process_image img img.width img.height quality max_width
    | _ => get_screenshot_adb_chain env quality max_width
  | _ => get_screenshot_adb_chain env quality max_width

/-- `get_screenshot(device_id, timeout, quality, max_width, preferred_method)`.
scrcpy is enabled (`scrcpy_enabled = True`) and always tried first when
available, regardless of the preferred method; then the preferred ADB method,
then the raw → gzip → png → legacy chain.  Every failure path funnels into
the black fallback screenshot: the function never raises and always returns a
`Screenshot`. -/
def get_screenshot (env : ShotEnv) (quality max_width : Nat)
    (preferred : Option Method) : Screenshot :=
  match (if env.scrcpy_available then env.scrcpy_result else none) with
  | some res => res
  | none => get_screenshot_preferred env quality max_width preferred

/-- `pat in l` on byte strings (Python's `bytes.find(...) >= 0`), used to
state that a stream's data never contains the `IEND` chunk type. -/
def occursB (pat : Bytes) : Bytes → Bool
  | [] => decide (pat = [])
  | x :: t => decide ((x :: t).take pat.length = pat) || occursB pat t

/-! ## Claim C3 — raw/gzip framebuffer parsing -/

theorem le4_length (n : Nat) : (le4 n).length = 4 := by simp [le4]

theorem le32_le4 (n : Nat) (hn : n < 4294967296) : le32 (le4 n) = n := by
  simp only [le4, le32, List.getD, List.get?, Option.getD]
  omega

/-- Evaluating the shared 12-byte-header validation on a structured input. -/
theorem decode_framebuffer_eq (w h fmt : Nat) (p : Bytes) (q mw : Nat)
    (hw : w < 4294967296) (hh : h < 4294967296) (hf : fmt < 4294967296) :
    decode_framebuffer (le4 w ++ (le4 h ++ (le4 fmt ++ p))) q mw =
      (if fmt ≠ 1 then .error (.unsupportedFormat fmt)
       else if p.length ≠ w * h * 4 then .error .incompleteData
       else .ok (process_image (Img.frombuffer w h p) w h q mw)) := by
  have e1 : (le4 w ++ (le4 h ++ (le4 fmt ++ p))).take 4 = le4 w :=
    List.take_left' (le4_length w)
  have e2 : (le4 w ++ (le4 h ++ (le4 fmt ++ p))).drop 4 = le4 h ++ (le4 fmt ++ p) :=
    List.drop_left' (le4_length w)
  have e3 : (le4 h ++ (le4 fmt ++ p)).take 4 = le4 h := List.take_left' (le4_length h)
  have e4 : (le4 w ++ (le4 h ++ (le4 fmt ++ p))).drop 8 = le4 fmt ++ p := by
    have e : le4 w ++ (le4 h ++ (le4 fmt ++ p)) = (le4 w ++ le4 h) ++ (le4 fmt ++ p) := by
      simp [List.append_assoc]
    rw [e]
    exact List.drop_left' (by simp [le4])
  have e5 : (le4 fmt ++ p).take 4 = le4 fmt := List.take_left' (le4_length fmt)
  have e6 : (le4 w ++ (le4 h ++ (le4 fmt ++ p))).drop 12 = p := by
    have e : le4 w ++ (le4 h ++ (le4 fmt ++ p)) = ((le4 w ++ le4 h) ++ le4 fmt) ++ p := by
      simp [List.append_assoc]
    rw [e]
    exact List.drop_left' (by simp [le4])
  have hlen : (le4 w ++ (le4 h ++ (le4 fmt ++ p))).length = 12 + p.length := by
    simp [le4]; omega
  unfold decode_framebuffer
  rw [hlen, if_neg (by omega), e1, e2, e3, e4, e5, e6,
      le32_le4 w hw, le32_le4 h hh, le32_le4 fmt hf]

theorem process_image_width (img : Img) (w h q mw : Nat) :
    (process_image img w h q mw).width = if w > mw then mw else w := by
  unfold process_image
  by_cases hc : w > mw <;> simp [hc]

theorem process_image_height (img : Img) (w h q mw : Nat) :
    (process_image img w h q mw).height = if w > mw then h * mw / w else h := by
  unfold process_image
  by_cases hc : w > mw <;> simp [hc]

theorem process_image_original_width (img : Img) (w h q mw : Nat) :
    (process_image img w h q mw).original_width =
      if (if w > mw then mw else w) ≠ w then some w else none := by
  unfold process_image
  by_cases hc : w > mw <;> simp [hc]

/-- C3, counterexample to the claim as stated: the well-formed raw input with
header `w=4, h=2, format=1` and exactly `4*2*4 = 32` payload bytes, captured
with `max_width = 2`, parses successfully but yields a frame of width 2
(the source resizes whenever `w > max_width`), not width 4. -/
theorem C3_counterexample :
    (get_screenshot_raw (some (le4 4 ++ (le4 2 ++ (le4 1 ++ List.replicate 32 0)))) 50 2).map
        Screenshot.width = .ok 2 ∧ (2 : Nat) ≠ 4 :=
  ⟨rfl, by decide⟩

/-- C3 (amended): for the raw and gzip strategies, an input whose first
12 bytes are a little-endian `width(4) height(4) format(4)` header with
`format = 1` followed by exactly `width*height*4` payload bytes parses
successfully; the resulting frame has exactly the header's dimensions when
`width ≤ max_width`, and otherwise is resized to `max_width ×
⌊height*max_width/width⌋` with the original width recorded.  Any input with
`format ≠ 1` yields the UnsupportedFormat error, and (with `format = 1`) any
payload whose length differs from `width*height*4` yields the IncompleteData
error. -/
theorem C3_raw_gzip_framebuffer (w h fmt : Nat) (p gz : Bytes) (q mw : Nat)
    (inflate : Bytes → Option Bytes)
    (hw : w < 4294967296) (hh : h < 4294967296) (hf : fmt < 4294967296)
    (hgz : gz.length ≠ 0)
    (hinf : inflate gz = some (le4 w ++ (le4 h ++ (le4 fmt ++ p)))) :
    (fmt = 1 → p.length = w * h * 4 →
      get_screenshot_raw (some (le4 w ++ (le4 h ++ (le4 fmt ++ p)))) q mw
          = .ok (process_image (Img.frombuffer w h p) w h q mw)
        ∧ get_screenshot_gzip (some gz) inflate q mw
          = .ok (process_image (Img.frombuffer w h p) w h q mw)
        ∧ (w ≤ mw → (process_image (Img.frombuffer w h p) w h q mw).width = w
            ∧ (process_image (Img.frombuffer w h p) w h q mw).height = h)
        ∧ (w > mw → (process_image (Img.frombuffer w h p) w h q mw).width = mw
            ∧ (process_image (Img.frombuffer w h p) w h q mw).height = h * mw / w
            ∧ (process_image (Img.frombuffer w h p) w h q mw).original_width = some w))
    ∧ (fmt ≠ 1 →
        get_screenshot_raw (some (le4 w ++ (le4 h ++ (le4 fmt ++ p)))) q mw
            = .error (.unsupportedFormat fmt)
          ∧ get_screenshot_gzip (some gz) inflate q mw = .error (.unsupportedFormat fmt))
    ∧ (fmt = 1 → p.length ≠ w * h * 4 →
        get_screenshot_raw (some (le4 w ++ (le4 h ++ (le4 fmt ++ p)))) q mw
            = .error .incompleteData
          ∧ get_screenshot_gzip (some gz) inflate q mw = .error .incompleteData) := by
  have hlen : (le4 w ++ (le4 h ++ (le4 fmt ++ p))).length = 12 + p.length := by
    simp [le4]; omega
  have hraw : get_screenshot_raw (some (le4 w ++ (le4 h ++ (le4 fmt ++ p)))) q mw
      = decode_framebuffer (le4 w ++ (le4 h ++ (le4 fmt ++ p))) q mw := by
    simp only [get_screenshot_raw]
    rw [if_neg (by rw [hlen]; omega)]
  have hgzip : get_screenshot_gzip (some gz) inflate q mw
      = decode_framebuffer (le4 w ++ (le4 h ++ (le4 fmt ++ p))) q mw := by
    simp only [get_screenshot_gzip]
    rw [if_neg hgz, hinf]
  rw [hraw, hgzip, decode_framebuffer_eq w h fmt p q mw hw hh hf]
  refine ⟨fun h1 h2 => ?_, fun h1 => ?_, fun h1 h2 => ?_⟩
  · rw [if_neg (by simp [h1]), if_neg (by simp [h2])]
    refine ⟨rfl, rfl, fun hle => ?_, fun hgt => ?_⟩
    · rw [process_image_width, process_image_height]
      constructor <;> rw [if_neg (by omega)]
    · rw [process_image_width, process_image_height, process_image_original_width]
      refine ⟨by rw [if_pos hgt], by rw [if_pos hgt], ?_⟩
      rw [if_pos hgt, if_pos (by omega)]
  · rw [if_pos h1]
    exact ⟨rfl, rfl⟩
  · rw [if_neg (by simp [h1]), if_pos h2]
    exact ⟨rfl, rfl⟩

/-- C3, witness: the amended theorem applied to the concrete well-formed
gzip+raw input `w=2, h=3, format=1` with 24 payload bytes at
`max_width = 10`, and its error cases at the same header shape. -/
theorem C3_witness :
    ((1 : Nat) = 1 → (List.replicate 24 (0 : Nat)).length = 2 * 3 * 4 →
      get_screenshot_raw (some (le4 2 ++ (le4 3 ++ (le4 1 ++ List.replicate 24 0)))) 50 10
          = .ok (process_image (Img.frombuffer 2 3 (List.replicate 24 0)) 2 3 50 10)
        ∧ get_screenshot_gzip (some [9]) (fun _ => some (le4 2 ++ (le4 3 ++ (le4 1 ++ List.replicate 24 0)))) 50 10
          = .ok (process_image (Img.frombuffer 2 3 (List.replicate 24 0)) 2 3 50 10)
        ∧ ((2 : Nat) ≤ 10 → (process_image (Img.frombuffer 2 3 (List.replicate 24 0)) 2 3 50 10).width = 2
            ∧ (process_image (Img.frombuffer 2 3 (List.replicate 24 0)) 2 3 50 10).height = 3)
        ∧ ((2 : Nat) > 10 → (process_image (Img.frombuffer 2 3 (List.replicate 24 0)) 2 3 50 10).width = 10
            ∧ (process_image (Img.frombuffer 2 3 (List.replicate 24 0)) 2 3 50 10).height = 3 * 10 / 2
            ∧ (process_image (Img.frombuffer 2 3 (List.replicate 24 0)) 2 3 50 10).original_width = some 2))
    ∧ ((1 : Nat) ≠ 1 →
        get_screenshot_raw (some (le4 2 ++ (le4 3 ++ (le4 1 ++ List.replicate 24 0)))) 50 10
            = .error (.unsupportedFormat 1)
          ∧ get_screenshot_gzip (some [9]) (fun _ => some (le4 2 ++ (le4 3 ++ (le4 1 ++ List.replicate 24 0)))) 50 10
            = .error (.unsupportedFormat 1))
    ∧ ((1 : Nat) = 1 → (List.replicate 24 (0 : Nat)).length ≠ 2 * 3 * 4 →
        get_screenshot_raw (some (le4 2 ++ (le4 3 ++ (le4 1 ++ List.replicate 24 0)))) 50 10
            = .error .incompleteData
          ∧ get_screenshot_gzip (some [9]) (fun _ => some (le4 2 ++ (le4 3 ++ (le4 1 ++ List.replicate 24 0)))) 50 10
            = .error .incompleteData) :=
  C3_raw_gzip_framebuffer 2 3 1 (List.replicate 24 0) [9] 50 10
    (fun _ => some (le4 2 ++ (le4 3 ++ (le4 1 ++ List.replicate 24 0))))
    (by decide) (by decide) (by decide) (by decide) rfl

/-! ## Claims C7, C1, C9 — `_capture_frame_sync` and the screen-state cache -/

/-- The screen-state cache lookup touches only the cache fields: the frame
cache and streaming flag pass through unchanged. -/
theorem screen_cache_preserves (s : StreamerState) (now : Time) (probe : Except Unit Bool) :
    (get_screen_state_cached s now probe).2.latest_frame = s.latest_frame
    ∧ (get_screen_state_cached s now probe).2.latest_frame_hash = s.latest_frame_hash
    ∧ (get_screen_state_cached s now probe).2.latest_frame_ts = s.latest_frame_ts
    ∧ (get_screen_state_cached s now probe).2.is_streaming = s.is_streaming := by
  unfold get_screen_state_cached
  split
  · exact ⟨rfl, rfl, rfl, rfl⟩
  · cases probe <;> exact ⟨rfl, rfl, rfl, rfl⟩

/-- C7: a `Locked` or `Error` capture result leaves the cached frame state
unchanged — `latest_frame` and `latest_frame_hash` hold the same values after
the call as before it — and the stored pixels change only on a successful
capture whose content hash differs from the cached one. -/
theorem C7_locked_error_no_overwrite (s : StreamerState) (env : CaptureEnv) :
    ((capture_frame_sync s env).1.2 = Status.locked ∨
      (capture_frame_sync s env).1.2 = Status.error →
      (capture_frame_sync s env).2.latest_frame = s.latest_frame ∧
      (capture_frame_sync s env).2.latest_frame_hash = s.latest_frame_hash)
    ∧ ((capture_frame_sync s env).2.latest_frame ≠ s.latest_frame →
        ∃ j, env.shot = some j ∧ s.latest_frame_hash ≠ some (md5 j) ∧
          (capture_frame_sync s env).2.latest_frame = some j ∧
          (capture_frame_sync s env).1.2 = Status.new) := by
  obtain ⟨hf, hh, hts, hst⟩ := screen_cache_preserves s env.nowCheck env.probe
  rcases hsc : get_screen_state_cached s env.nowCheck env.probe with ⟨is_on, s2⟩
  rw [hsc] at hf hh hts hst
  simp only at hf hh hts hst
  simp only [capture_frame_sync, hsc]
  cases is_on with
  | false =>
    simp only [Bool.false_eq_true, not_false_eq_true, if_true, ite_true]
    exact ⟨fun _ => ⟨hf, hh⟩, fun hne => absurd hf hne⟩
  | true =>
    simp only [not_true, if_false, ite_false, not_true_eq_false]
    cases hshot : env.shot with
    | none => exact ⟨fun _ => ⟨hf, hh⟩, fun hne => absurd hf hne⟩
    | some j =>
      by_cases heq : s2.latest_frame_hash = some (md5 j)
      · simp only [if_pos heq]
        refine ⟨fun hlo => ?_, fun hne => absurd hf hne⟩
        rcases hlo with hlo | hlo <;> simp at hlo
      · simp only [if_neg heq]
        refine ⟨fun hlo => ?_, fun _ => ⟨j, rfl, ?_, rfl, trivial⟩⟩
        · rcases hlo with hlo | hlo <;> simp at hlo
        · rw [← hh]; exact heq

/-- C7, witness: a concrete locked capture against a populated cache leaves
the cached frame and hash intact. -/
theorem C7_witness :
    (capture_frame_sync
        { latest_frame := some [7], latest_frame_hash := some (md5 [7]),
          latest_frame_ts := 1 }
        { probe := .ok false, shot := none, nowCheck := 1, nowStore := 1 }).2.latest_frame
      = ({ latest_frame := some [7], latest_frame_hash := some (md5 [7]),
           latest_frame_ts := 1 } : StreamerState).latest_frame
    ∧ (capture_frame_sync
        { latest_frame := some [7], latest_frame_hash := some (md5 [7]),
          latest_frame_ts := 1 }
        { probe := .ok false, shot := none, nowCheck := 1, nowStore := 1 }).2.latest_frame_hash
      = ({ latest_frame := some [7], latest_frame_hash := some (md5 [7]),
           latest_frame_ts := 1 } : StreamerState).latest_frame_hash :=
  (C7_locked_error_no_overwrite
    { latest_frame := some [7], latest_frame_hash := some (md5 [7]), latest_frame_ts := 1 }
    { probe := .ok false, shot := none, nowCheck := 1, nowStore := 1 }).1
    (Or.inl (by decide))

/-- Characterisation of a successful-shot capture: when the screen resolves
as on and the screenshot call returns jpeg bytes, the call follows the
hash-compare branch over the cache-updated state. -/
theorem capture_frame_sync_shot (s : StreamerState) (env : CaptureEnv) (j : Bytes)
    (hon : (get_screen_state_cached s env.nowCheck env.probe).1 = true)
    (hshot : env.shot = some j) :
    capture_frame_sync s env =
      (if (get_screen_state_cached s env.nowCheck env.probe).2.latest_frame_hash
          = some (md5 j) then
        (((get_screen_state_cached s env.nowCheck env.probe).2.latest_frame, Status.new),
         { (get_screen_state_cached s env.nowCheck env.probe).2 with
             latest_frame_ts := env.nowStore })
      else
        ((some j, Status.new),
         { (get_screen_state_cached s env.nowCheck env.probe).2 with
             latest_frame := some j, latest_frame_hash := some (md5 j),
             latest_frame_ts := env.nowStore })) := by
  rcases hsc : get_screen_state_cached s env.nowCheck env.probe with ⟨is_on, s2⟩
  rw [hsc] at hon
  simp only at hon
  subst hon
  simp only [capture_frame_sync, hsc, hshot, not_true, if_false, ite_false, not_true_eq_false]

/-- Characterisation of a locked capture. -/
theorem capture_frame_sync_locked (s : StreamerState) (env : CaptureEnv)
    (hoff : (get_screen_state_cached s env.nowCheck env.probe).1 = false) :
    capture_frame_sync s env =
      ((none, Status.locked), (get_screen_state_cached s env.nowCheck env.probe).2) := by
  rcases hsc : get_screen_state_cached s env.nowCheck env.probe with ⟨is_on, s2⟩
  rw [hsc] at hoff
  simp only at hoff
  subst hoff
  simp only [capture_frame_sync, hsc, Bool.false_eq_true, not_false_eq_true, if_true, ite_true]

/-- Characterisation of a failed-shot capture. -/
theorem capture_frame_sync_noshot (s : StreamerState) (env : CaptureEnv)
    (hon : (get_screen_state_cached s env.nowCheck env.probe).1 = true)
    (hshot : env.shot = none) :
    capture_frame_sync s env =
      ((none, Status.error), (get_screen_state_cached s env.nowCheck env.probe).2) := by
  rcases hsc : get_screen_state_cached s env.nowCheck env.probe with ⟨is_on, s2⟩
  rw [hsc] at hon
  simp only at hon
  subst hon
  simp only [capture_frame_sync, hsc, hshot, not_true, if_false, ite_false, not_true_eq_false]

/-- C1, counterexample to the claim as stated: a successful capture whose
content hash equals the cached hash returns the status `'new'`, not
`'unchanged'` (the source deliberately returns `'new'`:
`# Return 'new' instead of 'unchanged' to ensure frame is pushed`). -/
theorem C1_counterexample :
    (capture_frame_sync
        { is_streaming := true, latest_frame := some [1, 2, 3],
          latest_frame_hash := some (md5 [1, 2, 3]), latest_frame_ts := 1 }
        { probe := .ok true, shot := some [1, 2, 3], nowCheck := 2, nowStore := 3 }).1.2
      = Status.new
    ∧ Status.new ≠ Status.unchanged := by
  decide

/-- C1 (amended): on a successful capture whose hash equals the cached hash,
the call still advances the cached timestamp and returns the cached frame,
but with status `'new'` (deliberately, not `'unchanged'`); a differing hash
stores the new frame, hash and timestamp and returns `'new'` with the frame.
For two consecutive captures over an unchanged underlying image, the second
call returns `'new'` (never `'unchanged'`) with an identical content hash and
a strictly greater timestamp, leaving the stored frame untouched. -/
theorem C1_hash_dedup_and_timestamps (s : StreamerState) (env1 env2 : CaptureEnv) (j : Bytes)
    (hon1 : (get_screen_state_cached s env1.nowCheck env1.probe).1 = true)
    (hshot1 : env1.shot = some j)
    (hon2 : (get_screen_state_cached (capture_frame_sync s env1).2 env2.nowCheck
        env2.probe).1 = true)
    (hshot2 : env2.shot = some j)
    (ht : env1.nowStore < env2.nowStore) :
    (capture_frame_sync s env1).2.latest_frame_hash = some (md5 j)
    ∧ (capture_frame_sync s env1).2.latest_frame_ts = env1.nowStore
    ∧ (s.latest_frame_hash = some (md5 j) →
        (capture_frame_sync s env1).1 = (s.latest_frame, Status.new)
        ∧ (capture_frame_sync s env1).2.latest_frame = s.latest_frame)
    ∧ (s.latest_frame_hash ≠ some (md5 j) →
        (capture_frame_sync s env1).1 = (some j, Status.new)
        ∧ (capture_frame_sync s env1).2.latest_frame = some j)
    ∧ (capture_frame_sync (capture_frame_sync s env1).2 env2).1.2 = Status.new
    ∧ (capture_frame_sync (capture_frame_sync s env1).2 env2).1.2 ≠ Status.unchanged
    ∧ (capture_frame_sync (capture_frame_sync s env1).2 env2).2.latest_frame_hash
        = some (md5 j)
    ∧ (capture_frame_sync s env1).2.latest_frame_ts
        < (capture_frame_sync (capture_frame_sync s env1).2 env2).2.latest_frame_ts
    ∧ (capture_frame_sync (capture_frame_sync s env1).2 env2).2.latest_frame
        = (capture_frame_sync s env1).2.latest_frame := by
  have key : ∀ s1 : StreamerState, s1.latest_frame_hash = some (md5 j) →
      (get_screen_state_cached s1 env2.nowCheck env2.probe).1 = true →
      (capture_frame_sync s1 env2).1.2 = Status.new
      ∧ (capture_frame_sync s1 env2).2.latest_frame_hash = some (md5 j)
      ∧ (capture_frame_sync s1 env2).2.latest_frame_ts = env2.nowStore
      ∧ (capture_frame_sync s1 env2).2.latest_frame = s1.latest_frame := by
    intro s1 hh1 hon2'
    obtain ⟨qf, qh, qt, _⟩ := screen_cache_preserves s1 env2.nowCheck env2.probe
    rw [capture_frame_sync_shot s1 env2 j hon2' hshot2, if_pos (qh.trans hh1)]
    exact ⟨rfl, qh.trans hh1, rfl, qf⟩
  obtain ⟨pf, ph, pt, _⟩ := screen_cache_preserves s env1.nowCheck env1.probe
  rw [capture_frame_sync_shot s env1 j hon1 hshot1] at hon2 ⊢
  by_cases heq : (get_screen_state_cached s env1.nowCheck env1.probe).2.latest_frame_hash
      = some (md5 j)
  · rw [if_pos heq] at hon2 ⊢
    obtain ⟨k1, k2, k3, k4⟩ := key
      { (get_screen_state_cached s env1.nowCheck env1.probe).2 with
          latest_frame_ts := env1.nowStore } heq hon2
    refine ⟨heq, rfl, fun _ => ⟨by rw [pf], pf⟩, fun hne => absurd (ph.symm.trans heq) hne,
      k1, ?_, k2, ?_, k4⟩
    · rw [k1]; decide
    · rw [k3]; exact ht
  · rw [if_neg heq] at hon2 ⊢
    obtain ⟨k1, k2, k3, k4⟩ := key
      { (get_screen_state_cached s env1.nowCheck env1.probe).2 with
          latest_frame := some j, latest_frame_hash := some (md5 j),
          latest_frame_ts := env1.nowStore } rfl hon2
    refine ⟨rfl, rfl, fun hsame => absurd (ph.trans hsame) heq, fun _ => ⟨rfl, rfl⟩,
      k1, ?_, k2, ?_, k4⟩
    · rw [k1]; decide
    · rw [k3]; exact ht

/-- C1, witness: the amended theorem applied to two concrete captures of the
same jpeg bytes from an initially empty cache. -/
theorem C1_witness :
    (capture_frame_sync ({} : StreamerState)
        { probe := .ok true, shot := some [1, 2], nowCheck := 1, nowStore := 2 }).2.latest_frame_hash
      = some (md5 [1, 2]) :=
  (C1_hash_dedup_and_timestamps {}
      { probe := .ok true, shot := some [1, 2], nowCheck := 1, nowStore := 2 }
      { probe := .ok true, shot := some [1, 2], nowCheck := 3, nowStore := 4 }
      [1, 2] (by decide) rfl (by decide) rfl (by decide)).1

/-- C9: when the screen probe raises, the cache records the screen as on and
stamps the cache time, and a capture inside the following TTL window starts
from that cached `True` — it can never report `Locked`. -/
theorem C9_probe_exception_assumes_screen_on (s : StreamerState) (now : Time)
    (env : CaptureEnv)
    (hmiss : ¬(s.screen_on_cache.isSome ∧ now - s.screen_check_ts < screen_cache_ttl))
    (hfresh : env.nowCheck - now < screen_cache_ttl) :
    get_screen_state_cached s now (.error ())
      = (true, { s with screen_on_cache := some true, screen_check_ts := now })
    ∧ (capture_frame_sync
        { s with screen_on_cache := some true, screen_check_ts := now } env).1.2
        ≠ Status.locked := by
  have hcached : get_screen_state_cached
      { s with screen_on_cache := some true, screen_check_ts := now }
      env.nowCheck env.probe
      = (true, { s with screen_on_cache := some true, screen_check_ts := now }) := by
    unfold get_screen_state_cached
    rw [if_pos ⟨rfl, hfresh⟩]
    rfl
  have hon : (get_screen_state_cached
      { s with screen_on_cache := some true, screen_check_ts := now }
      env.nowCheck env.probe).1 = true := by
    rw [hcached]
  constructor
  · unfold get_screen_state_cached
    rw [if_neg hmiss]
  · cases hs : env.shot with
    | none =>
      rw [capture_frame_sync_noshot
        { s with screen_on_cache := some true, screen_check_ts := now } env hon hs]
      exact fun hcon => nomatch hcon
    | some j =>
      rw [capture_frame_sync_shot
        { s with screen_on_cache := some true, screen_check_ts := now } env j hon hs]
      by_cases heq : (get_screen_state_cached
          { s with screen_on_cache := some true, screen_check_ts := now }
          env.nowCheck env.probe).2.latest_frame_hash = some (md5 j)
      · rw [if_pos heq]; exact fun hcon => nomatch hcon
      · rw [if_neg heq]; exact fun hcon => nomatch hcon

/-- C9, witness: a probe exception on an empty cache at time 1, followed by a
capture at time 2 (inside the 5 s TTL window), which does not report locked. -/
theorem C9_witness :
    get_screen_state_cached ({} : StreamerState) 1 (.error ())
      = (true, { ({} : StreamerState) with screen_on_cache := some true, screen_check_ts := 1 })
    ∧ (capture_frame_sync
        { ({} : StreamerState) with screen_on_cache := some true, screen_check_ts := 1 }
        { probe := .error (), shot := some [3], nowCheck := 2, nowStore := 2 }).1.2
        ≠ Status.locked :=
  C9_probe_exception_assumes_screen_on {} 1
    { probe := .error (), shot := some [3], nowCheck := 2, nowStore := 2 }
    (by decide) (by decide)

/-! ## Claims C5, C6 — the consumer endpoints -/

/-- With background streaming active and a fresh cached frame (< 5 s old),
`capture_frame` returns the cached frame directly, mutating nothing and
performing no device capture. -/
theorem capture_frame_fresh (s : StreamerState) (env : FrameEnv) (f : Bytes)
    (hstr : s.is_streaming = true) (hf : s.latest_frame = some f) (hf0 : f.length ≠ 0)
    (hts : s.latest_frame_ts > 0) (hage : env.now - s.latest_frame_ts < 5) :
    capture_frame s env = ((some f, Status.new), s, false) := by
  simp only [capture_frame, hstr, hf, if_true, ite_true]
  rw [if_pos ⟨hf0, hts⟩, if_pos hage]

/-- `GET /stream/latest` served from a fresh cache is exactly the
ETag-serving block over the cached frame, with no device capture. -/
theorem get_latest_frame_fresh (s : StreamerState) (req : Request) (env : FrameEnv)
    (f : Bytes)
    (hstr : s.is_streaming = true) (hf : s.latest_frame = some f) (hf0 : f.length ≠ 0)
    (hts : s.latest_frame_ts > 0) (hage : env.now - s.latest_frame_ts < 5) :
    get_latest_frame s req env = (serve_frame_response f s.latest_frame_ts req, s, false) := by
  simp only [get_latest_frame, hstr, not_true, false_and, if_false, ite_false,
    not_true_eq_false]
  rw [capture_frame_fresh s env f hstr hf hf0 hts hage]
  simp only [if_pos hf0]

/-- C5, counterexample to the claim as stated: a `GET /stream/latest` request
arriving while background streaming is off (and a device is selected)
performs an on-demand device capture of its own — the returned
capture-performed flag is true. -/
theorem C5_counterexample :
    (get_latest_frame ({} : StreamerState)
        { if_none_match := none, accept_gzip := false }
        { device := true, now := 5, waitObs := [],
          cenv := { probe := .ok true, shot := some [7], nowCheck := 5, nowStore := 6 } }).2.2
      = true := by
  decide

/-- C5 (amended): while background streaming is active and the cached frame
is fresh (younger than 5 s), none of the three consumer endpoints performs a
device capture: `GET /stream/latest` and each `GET /stream/mjpeg` tick serve
the cached snapshot, and `WS /stream/ws` never captures at all.  (When
streaming is inactive or the cache is missing or stale, the two HTTP
endpoints fall back to an on-demand capture — see the counterexample.) -/
theorem C5_fresh_cache_serves_without_capture (s : StreamerState) (req : Request)
    (env : FrameEnv) (ms : MjpegState) (f : Bytes) (d : Bool)
    (hstr : s.is_streaming = true) (hf : s.latest_frame = some f) (hf0 : f.length ≠ 0)
    (hts : s.latest_frame_ts > 0) (hage : env.now - s.latest_frame_ts < 5) :
    (get_latest_frame s req env).2.2 = false
    ∧ (mjpeg_tick ms s env).2.2.2 = false
    ∧ (stream_websocket s d).2 = false := by
  refine ⟨?_, ?_, rfl⟩
  · rw [get_latest_frame_fresh s req env f hstr hf hf0 hts hage]
  · by_cases hdev : env.device
    · simp only [mjpeg_tick, hdev, not_true, if_false, ite_false, not_true_eq_false]
      rw [capture_frame_fresh s env f hstr hf hf0 hts hage]
      simp only [if_pos hf0]
    · simp only [mjpeg_tick, hdev]
      simp [hdev]

/-- C5, witness: the amended theorem at a concrete fresh-cache state. -/
theorem C5_witness :
    (get_latest_frame
        { is_streaming := true, latest_frame := some [5],
          latest_frame_hash := some (md5 [5]), latest_frame_ts := 10 }
        { if_none_match := none, accept_gzip := false }
        { device := true, now := 11, waitObs := [],
          cenv := { probe := .ok true, shot := some [5], nowCheck := 11, nowStore := 11 } }).2.2
      = false
    ∧ (mjpeg_tick { frame_interval := 1 }
        { is_streaming := true, latest_frame := some [5],
          latest_frame_hash := some (md5 [5]), latest_frame_ts := 10 }
        { device := true, now := 11, waitObs := [],
          cenv := { probe := .ok true, shot := some [5], nowCheck := 11, nowStore := 11 } }).2.2.2
      = false
    ∧ (stream_websocket
        { is_streaming := true, latest_frame := some [5],
          latest_frame_hash := some (md5 [5]), latest_frame_ts := 10 } true).2
      = false :=
  C5_fresh_cache_serves_without_capture
    { is_streaming := true, latest_frame := some [5],
      latest_frame_hash := some (md5 [5]), latest_frame_ts := 10 }
    { if_none_match := none, accept_gzip := false }
    { device := true, now := 11, waitObs := [],
      cenv := { probe := .ok true, shot := some [5], nowCheck := 11, nowStore := 11 } }
    { frame_interval := 1 } [5] true
    rfl rfl (by decide) (by decide) (by decide)

/-- C6, counterexample to the claim as stated: a request served while a
cached frame exists (but stale, with the device reporting a locked screen)
receives a 423 response — neither 304 nor 200. -/
theorem C6_counterexample :
    ({ is_streaming := true, latest_frame := some [5, 6],
       latest_frame_hash := some (md5 [5, 6]), latest_frame_ts := 1 } : StreamerState).latest_frame
      = some [5, 6]
    ∧ (get_latest_frame
        { is_streaming := true, latest_frame := some [5, 6],
          latest_frame_hash := some (md5 [5, 6]), latest_frame_ts := 1 }
        { if_none_match := none, accept_gzip := false }
        { device := true, now := 100, waitObs := [],
          cenv := { probe := .ok false, shot := none, nowCheck := 100, nowStore := 100 } }).1.status
      = 423 := by
  decide

/-- C6 (amended): for every `GET /stream/latest` request served from the
fresh cache (background streaming active, cached frame younger than 5 s):
an `If-None-Match` equal to the cached frame's content hash yields 304 with
no body; any other value (or none) yields 200 with the frame bytes (gzip-
wrapped when `Accept-Encoding` allows) and an `ETag` equal to that hash; and
a client echoing the `ETag` it was just served receives 304. -/
theorem C6_etag_roundtrip (s : StreamerState) (req : Request) (env : FrameEnv) (f : Bytes)
    (hstr : s.is_streaming = true) (hf : s.latest_frame = some f) (hf0 : f.length ≠ 0)
    (hts : s.latest_frame_ts > 0) (hage : env.now - s.latest_frame_ts < 5) :
    (req.if_none_match = some (md5 f) →
      (get_latest_frame s req env).1.status = 304
      ∧ (get_latest_frame s req env).1.body = none)
    ∧ (req.if_none_match ≠ some (md5 f) →
      (get_latest_frame s req env).1.status = 200
      ∧ (get_latest_frame s req env).1.etag = some (md5 f)
      ∧ (get_latest_frame s req env).1.body
          = some (if req.accept_gzip then gzipCompress f else f))
    ∧ (∀ e, (get_latest_frame s req env).1.etag = some e →
        (get_latest_frame s { req with if_none_match := some e } env).1.status = 304) := by
  have hserve := get_latest_frame_fresh s req env f hstr hf hf0 hts hage
  refine ⟨fun hm => ?_, fun hm => ?_, fun e he => ?_⟩
  · rw [hserve]
    simp [serve_frame_response, if_pos hm]
  · rw [hserve]
    simp [serve_frame_response, if_neg hm]
  · rw [hserve] at he
    have he' : e = md5 f := by
      simp only [serve_frame_response] at he
      by_cases hm : req.if_none_match = some (md5 f)
      · rw [if_pos hm] at he
        simp at he
      · rw [if_neg hm] at he
        simpa using he.symm
    subst he'
    rw [get_latest_frame_fresh s { req with if_none_match := some (md5 f) } env f
        hstr hf hf0 hts hage]
    simp [serve_frame_response]

/-- C6, witness: a request echoing the cached hash receives 304 with no
body at a concrete fresh-cache state. -/
theorem C6_witness :
    (get_latest_frame
        { is_streaming := true, latest_frame := some [5],
          latest_frame_hash := some (md5 [5]), latest_frame_ts := 10 }
        { if_none_match := some (md5 [5]), accept_gzip := false }
        { device := true, now := 11, waitObs := [],
          cenv := { probe := .ok true, shot := some [5], nowCheck := 11, nowStore := 11 } }).1.status
      = 304
    ∧ (get_latest_frame
        { is_streaming := true, latest_frame := some [5],
          latest_frame_hash := some (md5 [5]), latest_frame_ts := 10 }
        { if_none_match := some (md5 [5]), accept_gzip := false }
        { device := true, now := 11, waitObs := [],
          cenv := { probe := .ok true, shot := some [5], nowCheck := 11, nowStore := 11 } }).1.body
      = none :=
  (C6_etag_roundtrip
    { is_streaming := true, latest_frame := some [5],
      latest_frame_hash := some (md5 [5]), latest_frame_ts := 10 }
    { if_none_match := some (md5 [5]), accept_gzip := false }
    { device := true, now := 11, waitObs := [],
      cenv := { probe := .ok true, shot := some [5], nowCheck := 11, nowStore := 11 } }
    [5] rfl rfl (by decide) (by decide) (by decide)).1 rfl

/-! ## Claims C2, C4 — the background capture loop -/

/-- C2: the claim asserts that 20 consecutive `Error`/`Locked` capture
results self-terminate the loop with `is_streaming = false`.  The code does
not: `consecutive_errors` is reset at the top of every iteration that has a
device, and the error/locked branch never consults the threshold, so after
20 consecutive error results (screenshot returns nothing) and after 20
consecutive locked results (screen off) the loop is still running,
`is_streaming` is still true, and the counter sits at 1. -/
theorem C2_twenty_failures_loop_survives :
    (capture_loop_run (capture_loop_start { is_streaming := true })
        (List.replicate 20 (LoopEvent.iterate
          { probe := Except.ok true, shot := none, nowCheck := 1, nowStore := 1 } 1))).exited
      = false
    ∧ (capture_loop_run (capture_loop_start { is_streaming := true })
        (List.replicate 20 (LoopEvent.iterate
          { probe := Except.ok true, shot := none, nowCheck := 1, nowStore := 1 } 1))).streamer.is_streaming
      = true
    ∧ (capture_loop_run (capture_loop_start { is_streaming := true })
        (List.replicate 20 (LoopEvent.iterate
          { probe := Except.ok true, shot := none, nowCheck := 1, nowStore := 1 } 1))).consecutive_errors
      = 1
    ∧ (capture_loop_run (capture_loop_start { is_streaming := true })
        (List.replicate 20 (LoopEvent.iterate
          { probe := Except.ok false, shot := none, nowCheck := 1, nowStore := 1 } 1))).exited
      = false
    ∧ (capture_loop_run (capture_loop_start { is_streaming := true })
        (List.replicate 20 (LoopEvent.iterate
          { probe := Except.ok false, shot := none, nowCheck := 1, nowStore := 1 } 1))).streamer.is_streaming
      = true := by
  refine ⟨rfl, rfl, rfl, rfl, rfl⟩

/-- C4: the claim (and the source's own `update_settings` docstring) says the
loop reads `fps` afresh each iteration.  It does not: `target_frame_interval`
is computed once before the `while` loop.  Starting the loop at `fps = 60`,
then applying `update_settings(fps=30)`, the very next successful iteration
still paces at `1/60` — not `1/30` — even though `self.fps` is now 30. -/
theorem C4_fps_update_ignored_by_running_loop :
    (capture_loop_step
        ((capture_loop_step (capture_loop_start { is_streaming := true, fps := 60 })
          (LoopEvent.settings none none (some 30))).1)
        (LoopEvent.iterate
          { probe := .ok true, shot := some [9], nowCheck := 1, nowStore := 2 } 2)).2
      = some (1 / 60)
    ∧ ((capture_loop_step (capture_loop_start { is_streaming := true, fps := 60 })
          (LoopEvent.settings none none (some 30))).1).streamer.fps = 30
    ∧ ((1 : ℚ) / 60) ≠ ((1 : ℚ) / 30) := by
  refine ⟨?_, rfl, by norm_num⟩
  show some (if (60 : ℚ) > 0 then 1 / 60 else 167 / 10000) = some (1 / 60)
  rw [if_pos (by norm_num)]

/-! ## Claim C10 — total capture failure produces the black fallback -/

/-- C10: when every capture method fails (scrcpy unavailable or failing, raw
and gzip not producing a screenshot, both `screencap -p` runs failing, and
the legacy pull failing or rejected as a black screen), `get_screenshot`
neither raises nor returns an error value: it returns the fabricated
all-black 1080x2400 JPEG `Screenshot` with `is_sensitive = False` — the same
value `_create_fallback_screenshot(False)` builds, carrying no failure
marker distinguishable at the `Screenshot` interface. -/
theorem C10_all_methods_fail_black_fallback (env : ShotEnv) (q mw : Nat)
    (pref : Option Method)
    (hscrcpy : env.scrcpy_available = false ∨ env.scrcpy_result = none)
    (hraw : ∀ r, get_screenshot_raw env.raw_stdout q mw ≠ Except.ok r)
    (hgzip : ∀ r, get_screenshot_gzip env.gzip_stdout env.inflate q mw ≠ Except.ok r)
    (hppng : ∀ img, env.preferred_png ≠ PngOutcome.image img)
    (hfpng : ∀ img, env.fallback_png ≠ PngOutcome.image img)
    (hleg : env.legacy = LegacyOutcome.pullFailed
      ∨ ∃ img, env.legacy = LegacyOutcome.image img true) :
    get_screenshot env q mw pref = create_fallback_screenshot false
    ∧ (get_screenshot env q mw pref).is_sensitive = false
    ∧ (get_screenshot env q mw pref).width = 1080
    ∧ (get_screenshot env q mw pref).height = 2400
    ∧ (get_screenshot env q mw pref).jpeg_data
        = some (encodeJPEG (Img.blackNew 1080 2400) 50) := by
  have hlegres : get_screenshot_legacy env.legacy q mw
        = Except.ok (create_fallback_screenshot false)
      ∨ get_screenshot_legacy env.legacy q mw = Except.error () := by
    rcases hleg with h | ⟨img, h⟩
    · left; rw [h]; rfl
    · right; rw [h]; rfl
  have hlast : get_screenshot_last_resort env q mw = create_fallback_screenshot false := by
    unfold get_screenshot_last_resort
    rcases hlegres with h | h <;> rw [h]
  have hchain : get_screenshot_adb_chain env q mw = create_fallback_screenshot false := by
    unfold get_screenshot_adb_chain
    rcases hrw : get_screenshot_raw env.raw_stdout q mw with e | r
    · rcases hgz : get_screenshot_gzip env.gzip_stdout env.inflate q mw with e2 | r2
      · cases hpo : env.fallback_png with
        | exn => exact hlast
        | exitNonzero => rfl
        | empty => rfl
        | tooShort => rfl
        | parseFailed =>
          rcases hlegres with h | h <;> rw [h]
          exact hlast
        | image img => exact absurd hpo (hfpng img)
      · exact absurd hgz (hgzip r2)
    · exact absurd hrw (hraw r)
  have hpref : get_screenshot_preferred env q mw pref = create_fallback_screenshot false := by
    cases pref with
    | none => exact hchain
    | some m =>
      cases m with
      | scrcpy => exact hchain
      | raw =>
        simp only [get_screenshot_preferred]
        rcases hrw : get_screenshot_raw env.raw_stdout q mw with e | r
        · exact hchain
        · exact absurd hrw (hraw r)
      | gzip =>
        simp only [get_screenshot_preferred]
        rcases hgz : get_screenshot_gzip env.gzip_stdout env.inflate q mw with e | r
        · exact hchain
        · exact absurd hgz (hgzip r)
      | png =>
        simp only [get_screenshot_preferred]
        cases hpo : env.preferred_png with
        | exn => exact hchain
        | exitNonzero => exact hchain
        | empty => exact hchain
        | tooShort => exact hchain
        | parseFailed => exact hchain
        | image img => exact absurd hpo (hppng img)
  have htop : get_screenshot env q mw pref = create_fallback_screenshot false := by
    unfold get_screenshot
    rcases hscrcpy with ha | hr
    · rw [ha]
      exact hpref
    · cases hav : env.scrcpy_available
      · exact hpref
      · rw [hr]
        exact hpref
  refine ⟨htop, ?_, ?_, ?_, ?_⟩ <;> rw [htop] <;> rfl

/-- C10, witness: the theorem applied to a concrete everything-fails
environment. -/
theorem C10_witness :
    get_screenshot
        { scrcpy_available := false, scrcpy_result := none, raw_stdout := none,
          gzip_stdout := none, inflate := fun _ => none, preferred_png := .exn,
          fallback_png := .exn, legacy := .pullFailed } 50 540 (some .raw)
      = create_fallback_screenshot false
    ∧ (get_screenshot
        { scrcpy_available := false, scrcpy_result := none, raw_stdout := none,
          gzip_stdout := none, inflate := fun _ => none, preferred_png := .exn,
          fallback_png := .exn, legacy := .pullFailed } 50 540 (some .raw)).is_sensitive
      = false :=
  ⟨(C10_all_methods_fail_black_fallback
      { scrcpy_available := false, scrcpy_result := none, raw_stdout := none,
        gzip_stdout := none, inflate := fun _ => none, preferred_png := .exn,
        fallback_png := .exn, legacy := .pullFailed } 50 540 (some .raw)
      (Or.inl rfl) (fun r h => nomatch h) (fun r h => nomatch h)
      (fun img h => nomatch h) (fun img h => nomatch h) (Or.inl rfl)).1,
   (C10_all_methods_fail_black_fallback
      { scrcpy_available := false, scrcpy_result := none, raw_stdout := none,
        gzip_stdout := none, inflate := fun _ => none, preferred_png := .exn,
        fallback_png := .exn, legacy := .pullFailed } 50 540 (some .raw)
      (Or.inl rfl) (fun r h => nomatch h) (fun r h => nomatch h)
      (fun img h => nomatch h) (fun img h => nomatch h) (Or.inl rfl)).2.1⟩

/-! ## Claim C8 — the streaming PNG parser is bounded and non-blocking -/

theorem occursB_cons (pat : Bytes) (x : Nat) (t : Bytes) (h : occursB pat t = true) :
    occursB pat (x :: t) = true := by
  simp only [occursB, h, Bool.or_true]

/-- Occurrence in a suffix (`drop`) is occurrence in the whole list. -/
theorem occursB_drop (pat l : Bytes) (n : Nat)
    (h : occursB pat (l.drop n) = true) : occursB pat l = true := by
  induction l generalizing n with
  | nil => simpa using h
  | cons x t ih =>
    cases n with
    | zero => simpa using h
    | succ n => exact occursB_cons pat x t (ih n (by simpa using h))

/-- A pattern read off as a contiguous slice (`(l.drop k).take pat.length`)
occurs in the list. -/
theorem occursB_of_take_drop (pat l : Bytes) (k : Nat)
    (h : (l.drop k).take pat.length = pat) : occursB pat l = true := by
  induction l generalizing k with
  | nil =>
    have hp : pat = [] := by simpa using h.symm
    simp [occursB, hp]
  | cons x t ih =>
    cases k with
    | zero =>
      simp only [List.drop_zero] at h
      simp [occursB, h]
    | succ k => exact occursB_cons pat x t (ih k (by simpa using h))

/-- The chunk loop refuses to run once 1000 read attempts are used up. -/
theorem pngChunkLoop_attempts_exhausted (s : ByteStream) (png : Bytes) (a : Nat)
    (ha : png_max_read_attempts ≤ a) : pngChunkLoop s png a = none := by
  rw [pngChunkLoop]
  rw [dif_neg (by omega)]

/-- The chunk loop refuses to run once the accumulated data reaches 10 MB. -/
theorem pngChunkLoop_size_exhausted (s : ByteStream) (png : Bytes) (a : Nat)
    (hs : png_max_size ≤ png.length) : pngChunkLoop s png a = none := by
  rw [pngChunkLoop]
  rw [dif_neg (by omega)]

/-- On a stream that stays not-ready, the chunk loop gives up (after at most
10 retry polls) and returns `none`. -/
theorem pngChunkLoop_never_ready (k : Nat) :
    ∀ (s : ByteStream) (png : Bytes) (a : Nat),
      png_max_read_attempts - a ≤ k →
      (∀ i, s.idx ≤ i → s.ready i = false) →
      pngChunkLoop s png a = none := by
  induction k with
  | zero =>
    intro s png a hk hnr
    exact pngChunkLoop_attempts_exhausted s png a (by omega)
  | succ k ih =>
    intro s png a hk hnr
    by_cases hg : png.length < png_max_size ∧ a < png_max_read_attempts
    · rw [pngChunkLoop, dif_pos hg]
      have hp : s.poll.1 = false := hnr s.idx (le_refl _)
      simp only [hp, Bool.false_eq_true, not_false_eq_true, if_true, ite_true]
      by_cases h10 : a + 1 > 10
      · rw [if_pos h10]
      · rw [if_neg h10]
        exact ih s.poll.2 png (a + 1) (by omega)
          (fun i hi => hnr i (by exact Nat.le_of_succ_le hi))
    · rw [pngChunkLoop, dif_neg hg]

/-- The chunk-payload reader only consumes from the stream: its final stream
data is a suffix (`drop`) of the initial data. -/
theorem readChunkData_drop (k : Nat) :
    ∀ (s : ByteStream) (need : Nat) (acc cd : Bytes) (s' : ByteStream),
      need - acc.length ≤ k →
      readChunkData s need acc = some (cd, s') →
      ∃ n, s'.data = s.data.drop n := by
  induction k with
  | zero =>
    intro s need acc cd s' hk hr
    rw [readChunkData, dif_neg (by omega)] at hr
    obtain ⟨rfl, rfl⟩ : cd = acc ∧ s' = s := by
      simpa using hr.symm
    exact ⟨0, rfl⟩
  | succ k ih =>
    intro s need acc cd s' hk hr
    by_cases hlt : acc.length < need
    · rw [readChunkData, dif_pos hlt] at hr
      by_cases hrdy : s.poll.1 = true
      · simp only [hrdy, not_true, if_false, ite_false, not_true_eq_false] at hr
        by_cases hd : (s.poll.2.read (need - acc.length)).1.length = 0
        · rw [dif_pos hd] at hr
          exact absurd hr (by simp)
        · rw [dif_neg hd] at hr
          obtain ⟨n, hn⟩ := ih (s.poll.2.read (need - acc.length)).2 need
            (acc ++ (s.poll.2.read (need - acc.length)).1) cd s'
            (by
              have h1 : (s.poll.2.read (need - acc.length)).1.length ≠ 0 := hd
              simp only [List.length_append]
              omega) hr
          refine ⟨n + (need - acc.length), ?_⟩
          rw [hn]
          show (s.data.drop (need - acc.length)).drop n = _
          rw [List.drop_drop, Nat.add_comm]
      · simp only [Bool.not_eq_true] at hrdy
        simp only [hrdy, Bool.false_eq_true, not_false_eq_true, if_true, ite_true] at hr
        exact absurd hr (by simp)
    · rw [readChunkData, dif_neg hlt] at hr
      obtain ⟨rfl, rfl⟩ : cd = acc ∧ s' = s := by
        simpa using hr.symm
      exact ⟨0, rfl⟩

/-- The terminal chunk type is 4 bytes. -/
theorem iendType_length : iendType.length = 4 := by decide

/-- If `IEND` never occurs in the stream data, the chunk loop can never
report success: every chunk type it reads is a contiguous slice of that
data. -/
theorem pngChunkLoop_no_iend (k : Nat) :
    ∀ (s : ByteStream) (png : Bytes) (a : Nat),
      png_max_read_attempts - a ≤ k →
      occursB iendType s.data = false →
      pngChunkLoop s png a = none := by
  induction k with
  | zero =>
    intro s png a hk hoc
    exact pngChunkLoop_attempts_exhausted s png a (by omega)
  | succ k ih =>
    intro s png a hk hoc
    by_cases hg : png.length < png_max_size ∧ a < png_max_read_attempts
    · rw [pngChunkLoop, dif_pos hg]
      by_cases hrdy : s.poll.1 = true
      · simp only [hrdy, not_true, if_false, ite_false, not_true_eq_false]
        -- header read: chunk_header = s.data.take 8 (poll preserves data)
        by_cases hh8 : ((s.poll.2.read 8).1).length < 8
        · simp only [hh8, if_true, ite_true]
        · simp only [hh8, if_false, ite_false]
          by_cases hcl : be32 ((s.poll.2.read 8).1.take 4) > 10485760
          · simp only [hcl, if_true, ite_true]
          · simp only [hcl, if_false, ite_false]
            cases hrc : readChunkData (s.poll.2.read 8).2
                (be32 ((s.poll.2.read 8).1.take 4)) [] with
            | none => rfl
            | some pr =>
              obtain ⟨cd, s2⟩ := pr
              by_cases hq : s2.poll.1 = true
              · simp only [hq, not_true, if_false, ite_false, not_true_eq_false]
                by_cases hc4 : ((s2.poll.2.read 4).1).length < 4
                · simp only [hc4, if_true, ite_true]
                · simp only [hc4, if_false, ite_false]
                  -- the IEND test can never succeed: the chunk type is a
                  -- contiguous slice of the stream data
                  have htype : (s.poll.2.read 8).1.drop 4 ≠ iendType := by
                    intro hty
                    have htake : ((s.data.drop 4).take 4) = iendType := by
                      have : (s.poll.2.read 8).1 = s.data.take 8 := rfl
                      rw [this] at hty
                      rw [← hty]
                      rw [List.drop_take]
                    have : occursB iendType s.data = true := by
                      apply occursB_of_take_drop iendType s.data 4
                      rw [iendType_length]
                      exact htake
                    rw [this] at hoc
                    exact absurd hoc (by simp)
                  simp only [htype, if_false, ite_false]
                  -- recurse on a stream whose data is a drop of s.data
                  obtain ⟨n, hn⟩ := readChunkData_drop
                    (be32 ((s.poll.2.read 8).1.take 4)) (s.poll.2.read 8).2
                    (be32 ((s.poll.2.read 8).1.take 4)) [] cd s2 (by simp) hrc
                  have hs4 : ((s2.poll.2.read 4).2).data = s.data.drop (8 + (n + 4)) := by
                    show (s2.data.drop 4) = _
                    rw [hn]
                    show ((s.data.drop 8).drop n).drop 4 = _
                    rw [List.drop_drop, List.drop_drop]
                  apply ih _ _ (a + 1) (by omega)
                  rw [hs4]
                  cases hoc2 : occursB iendType (s.data.drop (8 + (n + 4))) with
                  | false => rfl
                  | true => rw [occursB_drop iendType s.data _ hoc2] at hoc; exact hoc
              · simp only [Bool.not_eq_true] at hq
                simp only [hq, Bool.false_eq_true, not_false_eq_true, if_true, ite_true]
      · simp only [Bool.not_eq_true] at hrdy
        simp only [hrdy, Bool.false_eq_true, not_false_eq_true, if_true, ite_true]
        by_cases h10 : a + 1 > 10
        · rw [if_pos h10]
        · rw [if_neg h10]
          exact ih s.poll.2 png (a + 1) (by omega) hoc
    · rw [pngChunkLoop, dif_neg hg]

/-- The resynchronisation scan only consumes from the stream. -/
theorem scanForSignature_drop :
    ∀ (fuel : Nat) (s : ByteStream) (buffer buf : Bytes) (s' : ByteStream),
      scanForSignature s buffer fuel = some (buf, s') →
      ∃ n, s'.data = s.data.drop n := by
  intro fuel
  induction fuel with
  | zero => intro s buffer buf s' h; exact absurd h (by simp [scanForSignature])
  | succ fuel ih =>
    intro s buffer buf s' h
    rw [scanForSignature] at h
    by_cases hrdy : s.poll.1 = true
    · simp only [hrdy, not_true, if_false, ite_false, not_true_eq_false] at h
      by_cases hmr : ((s.poll.2.read 1024).1).length = 0
      · simp only [hmr, if_pos] at h
        obtain ⟨rfl, rfl⟩ : buf = buffer ∧ s' = (s.poll.2.read 1024).2 := by
          simpa using h.symm
        exact ⟨1024, rfl⟩
      · simp only [hmr, if_neg, if_false, ite_false] at h
        cases hfs : findSignature (buffer ++ (s.poll.2.read 1024).1) with
        | some pos =>
          rw [hfs] at h
          simp only at h
          obtain ⟨rfl, rfl⟩ :
              buf = (buffer ++ (s.poll.2.read 1024).1).drop pos
                ∧ s' = (s.poll.2.read 1024).2 := by
            simpa using h.symm
          exact ⟨1024, rfl⟩
        | none =>
          rw [hfs] at h
          simp only at h
          by_cases hsz : (buffer ++ (s.poll.2.read 1024).1).length > 65536
          · rw [if_pos hsz] at h
            exact absurd h (by simp)
          · rw [if_neg hsz] at h
            obtain ⟨n, hn⟩ := ih (s.poll.2.read 1024).2
              (buffer ++ (s.poll.2.read 1024).1) buf s' h
            refine ⟨1024 + n, ?_⟩
            rw [hn]
            show (s.data.drop 1024).drop n = _
            rw [List.drop_drop, Nat.add_comm]
    · simp only [Bool.not_eq_true] at hrdy
      simp only [hrdy, Bool.false_eq_true, not_false_eq_true, if_true, ite_true] at h
      obtain ⟨rfl, rfl⟩ : buf = buffer ∧ s' = s.poll.2 := by
        simpa using h.symm
      exact ⟨0, rfl⟩

/-- C8: the streaming PNG parser returns no-frame (`none`) instead of
blocking: (i) a stream that is not ready at the initial poll yields `none`
at once, and a stream that stays not-ready makes the chunk loop give up
(via its 10-retry poll bound) with `none`; (ii) the chunk loop stops with
`none` as soon as 1000 read attempts are used or 10 MB of frame data have
accumulated (the 64 KB signature-scan bound is the `65536` guard inside
`scanForSignature`); and (iii) whenever the terminal `IEND` chunk type never
appears in the stream, the parser returns `none`. -/
theorem C8_png_parser_never_blocks :
    (∀ s : ByteStream, s.ready s.idx = false → read_png_from_stream s = none)
    ∧ (∀ (s : ByteStream) (png : Bytes) (a : Nat),
        (∀ i, s.idx ≤ i → s.ready i = false) → pngChunkLoop s png a = none)
    ∧ (∀ (s : ByteStream) (png : Bytes) (a : Nat),
        png_max_read_attempts ≤ a → pngChunkLoop s png a = none)
    ∧ (∀ (s : ByteStream) (png : Bytes) (a : Nat),
        png_max_size ≤ png.length → pngChunkLoop s png a = none)
    ∧ (∀ s : ByteStream, occursB iendType s.data = false →
        read_png_from_stream s = none) := by
  refine ⟨?_, ?_, ?_, ?_, ?_⟩
  · intro s h
    have hp : s.poll.1 = false := h
    rw [read_png_from_stream]
    simp only [hp, Bool.false_eq_true, not_false_eq_true, if_true, ite_true]
  · intro s png a h
    exact pngChunkLoop_never_ready png_max_read_attempts s png a (by omega) h
  · exact pngChunkLoop_attempts_exhausted
  · exact pngChunkLoop_size_exhausted
  · intro s hoc
    rw [read_png_from_stream]
    by_cases hrdy : s.poll.1 = true
    · simp only [hrdy, not_true, if_false, ite_false, not_true_eq_false]
      by_cases hh8 : ((s.poll.2.read 8).1).length < 8
      · simp only [hh8, if_true, ite_true]
      · simp only [hh8, if_false, ite_false]
        have hdrop8 : occursB iendType ((s.poll.2.read 8).2).data = false := by
          show occursB iendType (s.data.drop 8) = false
          cases hoc2 : occursB iendType (s.data.drop 8) with
          | false => rfl
          | true => rw [occursB_drop iendType s.data _ hoc2] at hoc; exact hoc
        by_cases hsig : (s.poll.2.read 8).1 = pngSignature
        · simp only [hsig, if_pos, if_true, ite_true]
          exact pngChunkLoop_no_iend png_max_read_attempts _ _ 0 (by omega) hdrop8
        · simp only [hsig, if_neg, if_false, ite_false]
          cases hscan : scanForSignature (s.poll.2.read 8).2 (s.poll.2.read 8).1 64 with
          | none => rfl
          | some pr =>
            obtain ⟨buf, s'⟩ := pr
            obtain ⟨n, hn⟩ := scanForSignature_drop 64 (s.poll.2.read 8).2
              (s.poll.2.read 8).1 buf s' hscan
            apply pngChunkLoop_no_iend png_max_read_attempts s' buf 0 (by omega)
            rw [hn]
            show occursB iendType ((s.data.drop 8).drop n) = false
            cases hoc2 : occursB iendType ((s.data.drop 8).drop n) with
            | false => rfl
            | true =>
              rw [occursB_drop iendType s.data _
                (occursB_drop iendType (s.data.drop 8) _ hoc2)] at hoc
              exact hoc
    · simp only [Bool.not_eq_true] at hrdy
      simp only [hrdy, Bool.false_eq_true, not_false_eq_true, if_true, ite_true]

/-- C8, witness: the theorem applied to a never-ready stream and to a
ready stream whose data (the bare signature) never contains `IEND`. -/
theorem C8_witness :
    read_png_from_stream { ready := fun _ => false, idx := 0, data := [] } = none
    ∧ read_png_from_stream { ready := fun _ => true, idx := 0, data := pngSignature } = none :=
  ⟨C8_png_parser_never_blocks.1 { ready := fun _ => false, idx := 0, data := [] } rfl,
   C8_png_parser_never_blocks.2.2.2.2
     { ready := fun _ => true, idx := 0, data := pngSignature } (by decide)⟩
